import Mathlib

/-!
Verification of the global UI-state store in `src/app/contexts/GlobalProvider.tsx`.

The store is a reducer-driven state record. We embed:
  * the state record `GlobalState` (the module constant `globalState` merged with the
    loader/cart-derived fields added at `useReducer` initialization);
  * dispatched actions as a string tag plus the payload reads the reducer performs;
  * the `reducer` switch, returning `Except` because the default case throws;
  * the action creators of the `actions` object;
  * the three effects (hydration, cart-ready, iframe visibility) as pure functions
    of the inputs they read, with the timer modeled by an explicit delay in ms.

Type parameters: `C` stands for `ReactNode` modal content, `V` for the values of a
`Record<string, any>` props object (modeled as an association list, the empty
object as `[]`, and object spread as a value-preserving copy), `K` for `Customer`,
`S` for the site-settings payload.  `null`/`undefined` become `Option`s; the
`Customer | null | undefined` field uses `Option (Option K)` with `none` for
`undefined` and `some none` for `null`.
-/

namespace GlobalProvider

/-- The modal slot `modal: \x7bchildren, props\x7d`: `children` is a nullable
`ReactNode`, `props` a string-keyed record. -/
structure Modal (C V : Type) where
  children : Option C
  props : List (String × V)
deriving DecidableEq

/-- The empty modal value `\x7bchildren: null, props: \x7b\x7d\x7d` the reducer
writes whenever it clears the modal. -/
def emptyModal (C V : Type) : Modal C V := { children := none, props := [] }

/-- The full state record: the fields of the module constant `globalState` plus
`settings`, `isPreviewModeEnabled` and `isCartReady`, which `GlobalProvider` merges
in when it initializes `useReducer`. -/
structure GlobalState (C V K S : Type) where
  cartOpen : Bool
  desktopMenuOpen : Bool
  iframesHidden : Bool
  mobileMenuOpen : Bool
  modal : Modal C V
  promobarOpen : Bool
  searchOpen : Bool
  previewModeCustomer : Option (Option K)
  isHydrated : Bool
  settings : Option S
  isPreviewModeEnabled : Bool
  isCartReady : Bool
deriving DecidableEq

/-- A dispatched action object.  `type` is the string tag the switch matches on.
JavaScript payloads are dynamic, so the remaining fields record the reads the
reducer can perform on `action.payload`: `children` and `props` are the fields of
the `OPEN_MODAL` payload object (`props` is `none` when the creator was called
without props, i.e. the field is `undefined`); `boolPayload` is the payload read
as a boolean by `TOGGLE_PROMOBAR`, `TOGGLE_IFRAMES_HIDDEN`, `SET_IS_CART_READY`
and `SET_IS_HYDRATED`; `customerPayload` is the payload read by
`SET_PREVIEW_MODE_CUSTOMER`.  Each branch reads only its own projection. -/
structure Action (C V K : Type) where
  type : String
  children : Option C
  props : Option (List (String × V))
  boolPayload : Bool
  customerPayload : Option (Option K)
deriving DecidableEq

/-- The object spread `\x7b...action.payload.props\x7d`: spreading `undefined`
yields the empty object, spreading a record copies it. -/
def spreadProps {V : Type} : Option (List (String × V)) → List (String × V)
  | none => []
  | some p => p

/-- The reducer switch of `GlobalProvider.tsx` lines 23–136, branch for branch.
The default case `throw new Error(...)` is an `Except.error` carrying the same
message. -/
def reducer {C V K S : Type} (state : GlobalState C V K S) (action : Action C V K) :
    Except String (GlobalState C V K S) :=
  match action.type with
  | "OPEN_CART" =>
      .ok { state with
        cartOpen := true
        desktopMenuOpen := false
        mobileMenuOpen := false
        modal := emptyModal C V
        searchOpen := false }
  | "CLOSE_CART" =>
      .ok { state with cartOpen := false }
  | "OPEN_DESKTOP_MENU" =>
      .ok { state with
        cartOpen := false
        desktopMenuOpen := true
        mobileMenuOpen := false
        modal := emptyModal C V
        searchOpen := false }
  | "CLOSE_DESKTOP_MENU" =>
      .ok { state with desktopMenuOpen := false }
  | "OPEN_MOBILE_MENU" =>
      .ok { state with
        cartOpen := false
        desktopMenuOpen := false
        mobileMenuOpen := true
        modal := emptyModal C V
        searchOpen := false }
  | "CLOSE_MOBILE_MENU" =>
      .ok { state with mobileMenuOpen := false }
  | "OPEN_MODAL" =>
      .ok { state with
        cartOpen := false
        desktopMenuOpen := false
        mobileMenuOpen := false
        modal := { children := action.children, props := spreadProps action.props }
        searchOpen := false }
  | "CLOSE_MODAL" =>
      .ok { state with modal := emptyModal C V }
  | "TOGGLE_PROMOBAR" =>
      .ok { state with promobarOpen := action.boolPayload }
  | "TOGGLE_IFRAMES_HIDDEN" =>
      .ok { state with iframesHidden := action.boolPayload }
  | "OPEN_SEARCH" =>
      .ok { state with
        cartOpen := false
        desktopMenuOpen := false
        mobileMenuOpen := false
        modal := emptyModal C V
        searchOpen := true }
  | "CLOSE_SEARCH" =>
      .ok { state with searchOpen := false }
  | "CLOSE_ALL" =>
      .ok { state with
        cartOpen := false
        desktopMenuOpen := false
        mobileMenuOpen := false
        modal := emptyModal C V
        searchOpen := false }
  | "SET_PREVIEW_MODE_CUSTOMER" =>
      .ok { state with previewModeCustomer := action.customerPayload }
  | "SET_IS_CART_READY" =>
      .ok { state with isCartReady := action.boolPayload }
  | "SET_IS_HYDRATED" =>
      .ok { state with isHydrated := action.boolPayload }
  | t => .error ("Invalid Context action of type: " ++ t)

/-- The sixteen action tags the switch recognizes, in source order. -/
def recognizedTypes : List String :=
  ["OPEN_CART", "CLOSE_CART", "OPEN_DESKTOP_MENU", "CLOSE_DESKTOP_MENU",
   "OPEN_MOBILE_MENU", "CLOSE_MOBILE_MENU", "OPEN_MODAL", "CLOSE_MODAL",
   "TOGGLE_PROMOBAR", "TOGGLE_IFRAMES_HIDDEN", "OPEN_SEARCH", "CLOSE_SEARCH",
   "CLOSE_ALL", "SET_PREVIEW_MODE_CUSTOMER", "SET_IS_CART_READY", "SET_IS_HYDRATED"]

/-- A `useReducer` dispatch: when the reducer throws, the update does not commit
and the stored state is unchanged. -/
def step {C V K S : Type} (s : GlobalState C V K S) (a : Action C V K) :
    GlobalState C V K S :=
  match reducer s a with
  | .ok s2 => s2
  | .error _ => s

/-- Dispatching a list of actions in order from a starting state. -/
def runActions {C V K S : Type} (s : GlobalState C V K S) (as : List (Action C V K)) :
    GlobalState C V K S :=
  as.foldl step s

/-- An action dispatched without a payload reads every projection of
`action.payload` as absent/default. -/
def mkBare (C V K : Type) (type : String) : Action C V K :=
  { type := type, children := none, props := none, boolPayload := false,
    customerPayload := none }

/-- The creators of the `actions` object, lines 138–189: each builds the action
object it dispatches. -/
def actions.openCart (C V K : Type) : Action C V K := mkBare C V K "OPEN_CART"

/-- `closeCart` dispatches `\x7btype: CLOSE_CART\x7d`. -/
def actions.closeCart (C V K : Type) : Action C V K := mkBare C V K "CLOSE_CART"

/-- `openDesktopMenu` dispatches `\x7btype: OPEN_DESKTOP_MENU\x7d`. -/
def actions.openDesktopMenu (C V K : Type) : Action C V K := mkBare C V K "OPEN_DESKTOP_MENU"

/-- `closeDesktopMenu` dispatches `\x7btype: CLOSE_DESKTOP_MENU\x7d`. -/
def actions.closeDesktopMenu (C V K : Type) : Action C V K := mkBare C V K "CLOSE_DESKTOP_MENU"

/-- `openMobileMenu` dispatches `\x7btype: OPEN_MOBILE_MENU\x7d`. -/
def actions.openMobileMenu (C V K : Type) : Action C V K := mkBare C V K "OPEN_MOBILE_MENU"

/-- `closeMobileMenu` dispatches `\x7btype: CLOSE_MOBILE_MENU\x7d`. -/
def actions.closeMobileMenu (C V K : Type) : Action C V K := mkBare C V K "CLOSE_MOBILE_MENU"

/-- `openModal(children, props?)` dispatches `OPEN_MODAL` with payload
`\x7bchildren, props\x7d`; `props` is optional. -/
def actions.openModal {C V : Type} (K : Type) (children : Option C)
    (props : Option (List (String × V))) : Action C V K :=
  { type := "OPEN_MODAL", children := children, props := props,
    boolPayload := false, customerPayload := none }

/-- `closeModal` dispatches `\x7btype: CLOSE_MODAL\x7d`. -/
def actions.closeModal (C V K : Type) : Action C V K := mkBare C V K "CLOSE_MODAL"

/-- `togglePromobar(isOpen)` dispatches `TOGGLE_PROMOBAR` with the boolean payload. -/
def actions.togglePromobar (C V K : Type) (isOpen : Bool) : Action C V K :=
  { mkBare C V K "TOGGLE_PROMOBAR" with boolPayload := isOpen }

/-- `toggleIframesHidden(isHidden)` dispatches `TOGGLE_IFRAMES_HIDDEN` with the
boolean payload. -/
def actions.toggleIframesHidden (C V K : Type) (isHidden : Bool) : Action C V K :=
  { mkBare C V K "TOGGLE_IFRAMES_HIDDEN" with boolPayload := isHidden }

/-- `openSearch` dispatches `\x7btype: OPEN_SEARCH\x7d`. -/
def actions.openSearch (C V K : Type) : Action C V K := mkBare C V K "OPEN_SEARCH"

/-- `closeSearch` dispatches `\x7btype: CLOSE_SEARCH\x7d`. -/
def actions.closeSearch (C V K : Type) : Action C V K := mkBare C V K "CLOSE_SEARCH"

/-- `closeAll` dispatches `\x7btype: CLOSE_ALL\x7d`. -/
def actions.closeAll (C V K : Type) : Action C V K := mkBare C V K "CLOSE_ALL"

/-- `setPreviewModeCustomer(customer)` dispatches the customer payload. -/
def actions.setPreviewModeCustomer (C V : Type) {K : Type}
    (customer : Option (Option K)) : Action C V K :=
  { mkBare C V K "SET_PREVIEW_MODE_CUSTOMER" with customerPayload := customer }

/-- `setIsCartReady(isReady)` dispatches the boolean payload. -/
def actions.setIsCartReady (C V K : Type) (isReady : Bool) : Action C V K :=
  { mkBare C V K "SET_IS_CART_READY" with boolPayload := isReady }

/-- `setIsHydrated(isHydrated)` dispatches the boolean payload. -/
def actions.setIsHydrated (C V K : Type) (isHydrated : Bool) : Action C V K :=
  { mkBare C V K "SET_IS_HYDRATED" with boolPayload := isHydrated }

/-- `cart.status === idle`, computed from the cart hook's status string. -/
def cartIsIdle (status : String) : Bool := status == "idle"

/-- The initial reducer state: the module constant `globalState`
(lines 11–21) spread and merged with `settings`, `isPreviewModeEnabled` and
`isCartReady: cartIsIdle` (lines 192–198). -/
def initialState (C V K : Type) {S : Type} (settings : Option S)
    (isPreviewModeEnabled : Bool) (status : String) : GlobalState C V K S :=
  { cartOpen := false
    desktopMenuOpen := false
    iframesHidden := false
    mobileMenuOpen := false
    modal := emptyModal C V
    promobarOpen := true
    searchOpen := false
    previewModeCustomer := none
    isHydrated := false
    settings := settings
    isPreviewModeEnabled := isPreviewModeEnabled
    isCartReady := cartIsIdle status }

/-- How many of the five panel indicators (the four booleans, plus the modal
having content) are active. -/
def openPanelCount {C V K S : Type} (s : GlobalState C V K S) : Nat :=
  (cond s.cartOpen 1 0) + (cond s.desktopMenuOpen 1 0) + (cond s.mobileMenuOpen 1 0) +
    (cond s.searchOpen 1 0) + (cond s.modal.children.isSome 1 0)

/-- The mutual-exclusion invariant: at most one panel indicator active. -/
def atMostOnePanel {C V K S : Type} (s : GlobalState C V K S) : Prop :=
  openPanelCount s ≤ 1

instance {C V K S : Type} (s : GlobalState C V K S) : Decidable (atMostOnePanel s) := by
  unfold atMostOnePanel; infer_instance

/-- The hydration effect body (lines 205–208): `if (state.isHydrated) return;`
dispatches nothing; otherwise it dispatches `setIsHydrated(true)`.  Its dependency
array is empty, so the rendering framework runs it once, on mount. -/
def hydrationEffect (C V K : Type) (isHydrated : Bool) : Option (Action C V K) :=
  if isHydrated then none else some (actions.setIsHydrated C V K true)

/-- One run of the hydration effect against a state: dispatch whatever the effect
body dispatches. -/
def runHydrationEffect {C V K S : Type} (s : GlobalState C V K S) :
    GlobalState C V K S :=
  match hydrationEffect C V K s.isHydrated with
  | none => s
  | some a => step s a

/-- What the cart-ready effect body does on one run: either dispatch
`setIsCartReady(true)` immediately, or schedule that same dispatch on a timer
with the given delay in milliseconds. -/
inductive CartReadyEffectAct where
  | setReadyNow : CartReadyEffectAct
  | setReadyAfter : Nat → CartReadyEffectAct
deriving DecidableEq

/-- The cart-ready effect body (lines 210–219): if the cart is idle and the flag
not yet set, dispatch immediately; otherwise `setTimeout(..., 1000)`. -/
def cartReadyEffect (cartIdle isCartReady : Bool) : CartReadyEffectAct :=
  if cartIdle && !isCartReady then .setReadyNow else .setReadyAfter 1000

/-- The absolute time (ms) at which the dispatch produced by one effect run sets
`isCartReady`, when the run happens at `runTime`: immediately at `runTime`, or
when the scheduled timer fires. -/
def cartReadySetTime (runTime : Nat) (cartIdle isCartReady : Bool) : Nat :=
  match cartReadyEffect cartIdle isCartReady with
  | .setReadyNow => runTime
  | .setReadyAfter d => runTime + d

/-- `classList.add`: a class list holds a token at most once; adding an already
present token is a no-op, otherwise the token is appended. -/
def classListAdd (cls : List String) (c : String) : List String :=
  if c ∈ cls then cls else cls ++ [c]

/-- `classList.remove`: removes the token from the list. -/
def classListRemove (cls : List String) (c : String) : List String :=
  cls.filter (fun x => x ≠ c)

/-- The derived flag of lines 202–203:
`state.iframesHidden || state.mobileMenuOpen || state.searchOpen`. -/
def iframesShouldBeHidden {C V K S : Type} (s : GlobalState C V K S) : Bool :=
  s.iframesHidden || s.mobileMenuOpen || s.searchOpen

/-- The iframe-visibility effect body (lines 221–233) on the document's iframes,
each represented by its class list: not hydrated means return early; otherwise
add or remove the `!invisible` marker on every iframe according to the flag. -/
def iframeEffect (isHydrated shouldHide : Bool) (iframes : List (List String)) :
    List (List String) :=
  if !isHydrated then iframes
  else if shouldHide then iframes.map (fun f => classListAdd f "!invisible")
  else iframes.map (fun f => classListRemove f "!invisible")

/-- A concrete state over `Nat` instantiations of the type parameters, used to
instantiate the theorems below on explicit inputs. -/
def sampleState : GlobalState Nat Nat Nat Nat :=
  { initialState Nat Nat Nat (some 5) true "loading" with
    cartOpen := true
    promobarOpen := false }

theorem cond_one_le_one (b : Bool) : (cond b 1 0 : Nat) ≤ 1 := by
  cases b <;> simp

theorem atMostOnePanel_reducer {C V K S : Type} {s s2 : GlobalState C V K S}
    {a : Action C V K} (hr : reducer s a = .ok s2) (h : atMostOnePanel s) :
    atMostOnePanel s2 := by
  unfold atMostOnePanel openPanelCount at h ⊢
  unfold reducer at hr
  split at hr
  all_goals (try exact Except.noConfusion hr)
  all_goals (injection hr with h2; subst h2)
  all_goals (simp only [emptyModal, Option.isSome_none, cond_true, cond_false,
    Nat.zero_add, Nat.add_zero] at h ⊢)
  all_goals (first | exact h | exact cond_one_le_one _ | omega)

theorem atMostOnePanel_step {C V K S : Type} (s : GlobalState C V K S)
    (a : Action C V K) (h : atMostOnePanel s) : atMostOnePanel (step s a) := by
  unfold step
  cases hr : reducer s a with
  | error e => exact h
  | ok s2 => exact atMostOnePanel_reducer hr h

theorem atMostOnePanel_runActions {C V K S : Type} (as : List (Action C V K))
    (s : GlobalState C V K S) (h : atMostOnePanel s) :
    atMostOnePanel (runActions s as) := by
  induction as generalizing s with
  | nil => exact h
  | cons a as ih => exact ih (step s a) (atMostOnePanel_step s a h)

theorem atMostOnePanel_initialState {C V K S : Type} (settings : Option S)
    (p : Bool) (status : String) :
    atMostOnePanel (initialState C V K settings p status) :=
  Nat.zero_le 1

theorem reducer_unknown {C V K S : Type} (s : GlobalState C V K S) (a : Action C V K)
    (h : a.type ∉ recognizedTypes) :
    reducer s a = .error ("Invalid Context action of type: " ++ a.type) := by
  unfold reducer
  split <;> simp_all [recognizedTypes]

theorem step_unknown {C V K S : Type} (s : GlobalState C V K S) (a : Action C V K)
    (h : a.type ∉ recognizedTypes) : step s a = s := by
  unfold step
  rw [reducer_unknown s a h]

theorem reducer_known_ok {C V K S : Type} (s : GlobalState C V K S) (a : Action C V K)
    (h : a.type ∈ recognizedTypes) : reducer s a = .ok (step s a) := by
  simp only [recognizedTypes, List.mem_cons, List.not_mem_nil, or_false] at h
  rcases h with h|h|h|h|h|h|h|h|h|h|h|h|h|h|h|h <;>
    (unfold step reducer; rw [h]; rfl)

theorem mem_classListAdd_self (cls : List String) (c : String) :
    c ∈ classListAdd cls c := by
  unfold classListAdd
  split
  · assumption
  · simp

theorem not_mem_classListRemove_self (cls : List String) (c : String) :
    c ∉ classListRemove cls c := by
  unfold classListRemove
  intro hmem
  simp [List.mem_filter] at hmem

/-- C1: mutual exclusion invariant — for every sequence of actions dispatched from
the initial state (over any settings, preview-mode flag and cart status), after
each reducer step at most one of `cartOpen`, `desktopMenuOpen`, `mobileMenuOpen`,
`searchOpen`, modal-has-content is active.  Quantifying over all action lists
covers every prefix of a dispatch sequence, i.e. the state after each step. -/
theorem C1_panel_mutual_exclusion {C V K S : Type} (settings : Option S) (p : Bool)
    (status : String) (as : List (Action C V K)) :
    atMostOnePanel (runActions (initialState C V K settings p status) as) :=
  atMostOnePanel_runActions as _ (atMostOnePanel_initialState settings p status)

/-- C2: each OPEN_* action, in a single reducer step, opens its own panel, sets the
other three panel booleans false and clears the modal; OPEN_MODAL sets the modal
from its payload instead of clearing it, with all four panel booleans false. -/
theorem C2_open_actions_close_others {C V K S : Type} :
    (∀ (s : GlobalState C V K S) (a : Action C V K), a.type = "OPEN_CART" →
      reducer s a = .ok { s with
        cartOpen := true
        desktopMenuOpen := false
        mobileMenuOpen := false
        modal := emptyModal C V
        searchOpen := false }) ∧
    (∀ (s : GlobalState C V K S) (a : Action C V K), a.type = "OPEN_DESKTOP_MENU" →
      reducer s a = .ok { s with
        cartOpen := false
        desktopMenuOpen := true
        mobileMenuOpen := false
        modal := emptyModal C V
        searchOpen := false }) ∧
    (∀ (s : GlobalState C V K S) (a : Action C V K), a.type = "OPEN_MOBILE_MENU" →
      reducer s a = .ok { s with
        cartOpen := false
        desktopMenuOpen := false
        mobileMenuOpen := true
        modal := emptyModal C V
        searchOpen := false }) ∧
    (∀ (s : GlobalState C V K S) (a : Action C V K), a.type = "OPEN_SEARCH" →
      reducer s a = .ok { s with
        cartOpen := false
        desktopMenuOpen := false
        mobileMenuOpen := false
        modal := emptyModal C V
        searchOpen := true }) ∧
    (∀ (s : GlobalState C V K S) (a : Action C V K), a.type = "OPEN_MODAL" →
      reducer s a = .ok { s with
        cartOpen := false
        desktopMenuOpen := false
        mobileMenuOpen := false
        modal := { children := a.children, props := spreadProps a.props }
        searchOpen := false }) := by
  refine ⟨?_, ?_, ?_, ?_, ?_⟩ <;> (intro s a h; unfold reducer; rw [h]; rfl)

/-- Witness for C2: the dispatched `openCart` creator action at a concrete state. -/
theorem C2_open_actions_close_others_witness :
    reducer sampleState (actions.openCart Nat Nat Nat) = .ok { sampleState with
      cartOpen := true
      desktopMenuOpen := false
      mobileMenuOpen := false
      modal := emptyModal Nat Nat
      searchOpen := false } :=
  C2_open_actions_close_others.1 sampleState (actions.openCart Nat Nat Nat) rfl

/-- C3: dispatching an action whose kind is outside the recognized set yields the
invalid-action error synchronously and the stored state is unchanged; for every
kind inside the set the reducer succeeds (returns `ok` of the successor state). -/
theorem C3_unknown_action_error {C V K S : Type} :
    (∀ (s : GlobalState C V K S) (a : Action C V K), a.type ∉ recognizedTypes →
      reducer s a = .error ("Invalid Context action of type: " ++ a.type) ∧
        step s a = s) ∧
    (∀ (s : GlobalState C V K S) (a : Action C V K), a.type ∈ recognizedTypes →
      reducer s a = .ok (step s a)) :=
  ⟨fun s a h => ⟨reducer_unknown s a h, step_unknown s a h⟩,
   fun s a h => reducer_known_ok s a h⟩

/-- Witness for C3: the unrecognized kind NOPE errors and leaves the state intact;
the recognized kind OPEN_CART succeeds. -/
theorem C3_unknown_action_error_witness :
    (reducer sampleState (mkBare Nat Nat Nat "NOPE") =
        .error "Invalid Context action of type: NOPE" ∧
      step sampleState (mkBare Nat Nat Nat "NOPE") = sampleState) ∧
    reducer sampleState (actions.openCart Nat Nat Nat) =
      .ok (step sampleState (actions.openCart Nat Nat Nat)) :=
  ⟨C3_unknown_action_error.1 sampleState (mkBare Nat Nat Nat "NOPE") (by decide),
   C3_unknown_action_error.2 sampleState (actions.openCart Nat Nat Nat) (by decide)⟩

/-- C4: each CLOSE_* action only clears its own flag (CLOSE_MODAL only clears the
modal) and leaves every other field of the state unchanged — expressed as a
single-field record update of the prior state. -/
theorem C4_close_actions_frame {C V K S : Type} :
    (∀ (s : GlobalState C V K S) (a : Action C V K), a.type = "CLOSE_CART" →
      reducer s a = .ok { s with cartOpen := false }) ∧
    (∀ (s : GlobalState C V K S) (a : Action C V K), a.type = "CLOSE_DESKTOP_MENU" →
      reducer s a = .ok { s with desktopMenuOpen := false }) ∧
    (∀ (s : GlobalState C V K S) (a : Action C V K), a.type = "CLOSE_MOBILE_MENU" →
      reducer s a = .ok { s with mobileMenuOpen := false }) ∧
    (∀ (s : GlobalState C V K S) (a : Action C V K), a.type = "CLOSE_SEARCH" →
      reducer s a = .ok { s with searchOpen := false }) ∧
    (∀ (s : GlobalState C V K S) (a : Action C V K), a.type = "CLOSE_MODAL" →
      reducer s a = .ok { s with modal := emptyModal C V }) := by
  refine ⟨?_, ?_, ?_, ?_, ?_⟩ <;> (intro s a h; unfold reducer; rw [h]; rfl)

/-- Witness for C4: the dispatched `closeSearch` creator action at a concrete
state clears only `searchOpen`. -/
theorem C4_close_actions_frame_witness :
    reducer sampleState (actions.closeSearch Nat Nat Nat) =
      .ok { sampleState with searchOpen := false } :=
  C4_close_actions_frame.2.2.2.1 sampleState (actions.closeSearch Nat Nat Nat) rfl

/-- C5: CLOSE_ALL, from any prior state, sets the four panel booleans false and
clears the modal, leaving all non-panel fields unchanged (the record update keeps
every other field of `s`). -/
theorem C5_close_all_resets_panels {C V K S : Type} (s : GlobalState C V K S)
    (a : Action C V K) (h : a.type = "CLOSE_ALL") :
    reducer s a = .ok { s with
      cartOpen := false
      desktopMenuOpen := false
      mobileMenuOpen := false
      modal := emptyModal C V
      searchOpen := false } := by
  unfold reducer; rw [h]; rfl

/-- Witness for C5: the dispatched `closeAll` creator action at a concrete state. -/
theorem C5_close_all_resets_panels_witness :
    reducer sampleState (actions.closeAll Nat Nat Nat) = .ok { sampleState with
      cartOpen := false
      desktopMenuOpen := false
      mobileMenuOpen := false
      modal := emptyModal Nat Nat
      searchOpen := false } :=
  C5_close_all_resets_panels sampleState (actions.closeAll Nat Nat Nat) rfl

/-- C6: dispatching `openModal(c, p)` and reading the state yields
`modal = \x7bchildren: c, props: p\x7d` with all four panel booleans false. -/
theorem C6_open_modal_sets_content {C V K S : Type} (c : Option C)
    (p : List (String × V)) (s : GlobalState C V K S) :
    (step s (actions.openModal K c (some p))).modal = { children := c, props := p } ∧
    (step s (actions.openModal K c (some p))).cartOpen = false ∧
    (step s (actions.openModal K c (some p))).desktopMenuOpen = false ∧
    (step s (actions.openModal K c (some p))).mobileMenuOpen = false ∧
    (step s (actions.openModal K c (some p))).searchOpen = false :=
  ⟨rfl, rfl, rfl, rfl, rfl⟩

/-- C7: the cart-ready effect run at time T with the cart idle sets `isCartReady`
at or before T+1000ms; when the cart is not idle the fallback timer is scheduled
at exactly 1000ms after the run; the effect dispatches immediately exactly when
the cart is idle and the flag is not yet set; and the dispatched
`setIsCartReady(true)` action makes `isCartReady` true in one step. -/
theorem C7_cart_ready_timing {C V K S : Type} (T : Nat) (i r : Bool)
    (s : GlobalState C V K S) :
    cartReadySetTime T true r ≤ T + 1000 ∧
    cartReadyEffect false r = .setReadyAfter 1000 ∧
    (cartReadyEffect i r = .setReadyNow ↔ i = true ∧ r = false) ∧
    (step s (actions.setIsCartReady C V K true)).isCartReady = true := by
  refine ⟨?_, ?_, ?_, rfl⟩
  · cases r <;> simp [cartReadySetTime, cartReadyEffect]
  · cases r <;> rfl
  · cases i <;> cases r <;> simp [cartReadyEffect]

/-- C8: hydration is idempotent — when `isHydrated` already holds, dispatching
`setIsHydrated(true)` returns the very same state; and once the hydration effect
has run, the state is hydrated and a re-run of the effect body dispatches
nothing (its real dependency array being empty, it is run only on mount anyway). -/
theorem C8_hydration_idempotent {C V K S : Type} :
    (∀ s : GlobalState C V K S, s.isHydrated = true →
      reducer s (actions.setIsHydrated C V K true) = .ok s) ∧
    (∀ s : GlobalState C V K S, (runHydrationEffect s).isHydrated = true ∧
      hydrationEffect C V K (runHydrationEffect s).isHydrated = none) := by
  constructor
  · intro s h
    obtain ⟨c, d, f, m, mo, pb, se, pc, hy, st, ip, ic⟩ := s
    subst h
    rfl
  · intro s
    have hrun : (runHydrationEffect s).isHydrated = true := by
      unfold runHydrationEffect hydrationEffect
      cases hh : s.isHydrated
      · rfl
      · exact hh
    refine ⟨hrun, ?_⟩
    rw [hrun]
    rfl

/-- Witness for C8: at a concrete hydrated state, dispatching hydration-true
returns that state unchanged. -/
theorem C8_hydration_idempotent_witness :
    reducer { sampleState with isHydrated := true }
        (actions.setIsHydrated Nat Nat Nat true) =
      .ok { sampleState with isHydrated := true } :=
  C8_hydration_idempotent.1 { sampleState with isHydrated := true } rfl

/-- C9: the iframe-visibility effect leaves the document alone before hydration,
and once hydrated every iframe in its output carries the `!invisible` marker if
and only if the derived flag `iframesHidden OR mobileMenuOpen OR searchOpen` is
true. -/
theorem C9_iframe_effect_visibility {C V K S : Type} (s : GlobalState C V K S)
    (hidden : Bool) (iframes : List (List String)) :
    iframeEffect false hidden iframes = iframes ∧
    (s.isHydrated = true →
      ∀ f ∈ iframeEffect s.isHydrated (iframesShouldBeHidden s) iframes,
        (("!invisible" ∈ f) ↔ iframesShouldBeHidden s = true)) := by
  constructor
  · rfl
  · intro h f hf
    rw [h] at hf
    unfold iframeEffect at hf
    cases hsh : iframesShouldBeHidden s <;> rw [hsh] at hf <;> simp at hf <;>
      obtain ⟨g, hg, rfl⟩ := hf
    · simp [not_mem_classListRemove_self]
    · simp [mem_classListAdd_self]

/-- Witness for C9: a hydrated state whose derived flag is false, on a document
with one iframe carrying the marker — the effect output no longer carries it. -/
theorem C9_iframe_effect_visibility_witness :
    ("!invisible" ∈ (["frameA"] : List String)) ↔
      iframesShouldBeHidden { sampleState with isHydrated := true } = true :=
  (C9_iframe_effect_visibility { sampleState with isHydrated := true } false
      [["frameA", "!invisible"]]).2 rfl ["frameA"] (by decide)

/-- C10: the initial state has all four panel flags false, an empty modal, the
promobar open, iframes not hidden, not hydrated, no preview-mode customer, and
`isCartReady` equal to whether the cart status is idle at construction; it
satisfies the at-most-one-panel invariant. -/
theorem C10_initial_state_fields {C V K S : Type} (settings : Option S) (p : Bool)
    (status : String) :
    (initialState C V K settings p status).cartOpen = false ∧
    (initialState C V K settings p status).desktopMenuOpen = false ∧
    (initialState C V K settings p status).mobileMenuOpen = false ∧
    (initialState C V K settings p status).searchOpen = false ∧
    (initialState C V K settings p status).modal = emptyModal C V ∧
    (initialState C V K settings p status).promobarOpen = true ∧
    (initialState C V K settings p status).iframesHidden = false ∧
    (initialState C V K settings p status).isHydrated = false ∧
    (initialState C V K settings p status).previewModeCustomer = none ∧
    (initialState C V K settings p status).isCartReady = cartIsIdle status ∧
    atMostOnePanel (initialState C V K settings p status) :=
  ⟨rfl, rfl, rfl, rfl, rfl, rfl, rfl, rfl, rfl, rfl,
   atMostOnePanel_initialState settings p status⟩

end GlobalProvider
